import Mathlib

/-
Verification of the `import.py` template-import script (pve-import-template).

The script is sequential shell-command orchestration.  We embed it as pure
functions over an explicit state:

  * `World` is the set of local file paths that currently exist (the only
    files the script itself creates or deletes, plus the VM definition
    files `/etc/pve/qemu-server/{vmid}.conf` it probes).
  * `Ev` is an event in the observable trace: a printed line, a download,
    a file rename, or an external command launched via the `run` helper
    (recording the command, the environment passed, and its exit status).
  * `Exec` is an oracle for the outside world: whether a given URL
    downloads successfully, and the exit status each external command
    returns.  External commands' effects on the local files are outside
    the model (none of the commands the script issues touch the files it
    tracks, and no property below depends on such an effect).
  * Python exceptions are modelled by `Except PyError`; a raised
    exception carries the events emitted before the raise.

Machine integers play no role (vmids are `Nat`); `str.replace` is
modelled character-exactly on `List Char`.
-/

namespace PveImport

instance {ε α : Type} [DecidableEq ε] [DecidableEq α] : DecidableEq (Except ε α) :=
  fun x y =>
    match x, y with
    | .ok a, .ok b => decidable_of_iff (a = b) ⟨fun h => h ▸ rfl, Except.ok.inj⟩
    | .error a, .error b => decidable_of_iff (a = b) ⟨fun h => h ▸ rfl, Except.error.inj⟩
    | .ok _, .error _ => isFalse fun h => Except.noConfusion h
    | .error _, .ok _ => isFalse fun h => Except.noConfusion h

/-- A command handed to `subprocess.run`: either a shell string
(`shell=True`) or an argv list (`shell=False`). -/
inductive Cmd where
  | shell (cmd : String)
  | argv (args : List String)
deriving DecidableEq

/-- The Python exceptions the script can raise. -/
inductive PyError where
  | keyError (key : String)
  | fileNotFoundError
  | urlError
deriving DecidableEq

/-- One observable event of the script. -/
inductive Ev where
  | print (line : String)
  | download (url : String) (dest : String)
  | rename (src : String) (dst : String)
  | runCmd (cmd : Cmd) (env : List (String × String)) (exitCode : Int)
deriving DecidableEq

/-- Oracle for the outside world: download success per URL and the exit
status of each external command. -/
structure Exec where
  dlOk : String → Bool
  exitCode : Cmd → Int

/-- One record of `pvesh get /storage` output: name, comma-separated
content-type list, backend type (import.py lines 66-76). -/
structure StorageRecord where
  storage : String
  content : String
  type : String
deriving DecidableEq

/-- `StorageInfo.Dir` / `StorageInfo.Raw` from import.py lines 32-48:
the two disk-naming conventions, each carrying the storage name. -/
inductive StorageInfo where
  | Dir (name : String)
  | Raw (name : String)
deriving DecidableEq

def StorageInfo.name : StorageInfo → String
  | .Dir n => n
  | .Raw n => n

/-- `format_disk_name` (import.py lines 43-48). -/
def StorageInfo.format_disk_name (s : StorageInfo) (vmid : Nat) : String :=
  match s with
  | .Dir _ => s!"{vmid}/vm-{vmid}-disk-0.qcow2"
  | .Raw _ => s!"vm-{vmid}-disk-0"

/-- Split a character list at every occurrence of the separator, keeping
empty segments — the behavior of Python `str.split(sep)` for a
single-character separator. -/
def splitChars (sep : Char) : List Char → List (List Char)
  | [] => [[]]
  | c :: rest =>
    let r := splitChars sep rest
    if c = sep then [] :: r
    else
      match r with
      | [] => [[c]]
      | s :: ss => (c :: s) :: ss

/-- Python `s.split(',')`. -/
def pySplitComma (s : String) : List String :=
  (splitChars ',' s.data).map String.mk

/-- `check_storage` (import.py lines 56-84): scan the storage records in
order; at the first record whose name matches, check the content list and
classify the backend type; error if no record matches. -/
def check_storage (storages : List StorageRecord) (name : String) :
    Except String StorageInfo :=
  match storages with
  | [] => Except.error s!"PVE storage {name} does not exist."
  | storage :: rest =>
    if storage.storage ≠ name then
      check_storage rest name
    else
      let content := pySplitComma storage.content
      if "images" ∉ content then
        Except.error s!"PVE storage {name} does not support VM images."
      else
        let typ := storage.type
        if typ ∈ ["dir", "nfs", "glusterfs"] then
          Except.ok (StorageInfo.Dir name)
        else if typ ∈ ["zfspool", "lvm", "lvmthin"] then
          Except.ok (StorageInfo.Raw name)
        else
          Except.error s!"Unsupported PVE storage type {typ}."

/-- Python `s.replace(pat, rep)` on explicit character lists: scan left to
right, replace non-overlapping occurrences, never re-scan replaced text.
While `skip` is positive the scanner is inside an already-matched
occurrence and only consumes characters.  (The patterns used by the
script are nonempty; for an empty pattern this returns the input
unchanged.) -/
def replaceCore (pat rep : List Char) (skip : Nat) : List Char → List Char
  | [] => []
  | c :: rest =>
    match skip with
    | k + 1 => replaceCore pat rep k rest
    | 0 =>
      if pat.isPrefixOf (c :: rest) && !pat.isEmpty then
        rep ++ replaceCore pat rep (pat.length - 1) rest
      else
        c :: replaceCore pat rep 0 rest

/-- Python `s.replace(pat, rep)` on strings. -/
def pyReplace (s pat rep : String) : String :=
  String.mk (replaceCore pat.data rep.data 0 s.data)

/-- Simultaneous substitution of two placeholders, scanning the subject
string once.  Modelled from the spec: "the unpack command must receive
the literal temp-download path substituted for `{dl}` and the literal
final-image path substituted for `{img}`" — each occurrence in the
original command template is replaced by the corresponding literal path,
with neither replacement re-scanned.  This is the claim-side reference
the code's two sequential `str.replace` passes are compared against. -/
def substSimul (p1 r1 p2 r2 : List Char) (skip : Nat) : List Char → List Char
  | [] => []
  | c :: rest =>
    match skip with
    | k + 1 => substSimul p1 r1 p2 r2 k rest
    | 0 =>
      if p1.isPrefixOf (c :: rest) && !p1.isEmpty then
        r1 ++ substSimul p1 r1 p2 r2 (p1.length - 1) rest
      else if p2.isPrefixOf (c :: rest) && !p2.isEmpty then
        r2 ++ substSimul p1 r1 p2 r2 (p2.length - 1) rest
      else
        c :: substSimul p1 r1 p2 r2 0 rest

/-- Modelled from the spec: the substitution the spec describes for the
unpack command template — `{dl}` ↦ download path, `{img}` ↦ image path,
applied simultaneously to the original template string. -/
def spec_substitute (cmdTemplate dl img : String) : String :=
  String.mk (substSimul "{dl}".data dl.data "{img}".data img.data 0 cmdTemplate.data)

/-- The `customize` sub-dict of a template: `uploads` / `commands`, a
missing key read with `.get(k, [])` behaving as the empty list. -/
structure Customize where
  uploads : List String
  commands : List String
deriving DecidableEq

/-- A template dict from `templates.yaml`.  Every field a `.get` or
`[...]` access may find missing is an `Option`; `template['cloud_init']`
is used only for its truth value, so it is a `Bool`. -/
structure Template where
  vmid : Option Nat
  name : Option String
  url : Option String
  unpack : Option String
  customize : Option Customize
  cloud_init : Option Bool
deriving DecidableEq

/-- `build_customize_args` (import.py lines 91-103): start from an empty
list, extend with a `--upload` pair per upload, then a `--run-command`
pair per command; `None` gives the empty list. -/
def build_customize_args (customize : Option Customize) : List String :=
  match customize with
  | none => []
  | some c =>
    let args : List String := []
    let args := c.uploads.foldl (fun args upload => args ++ ["--upload", upload]) args
    let args := c.commands.foldl (fun args command => args ++ ["--run-command", command]) args
    args

/-- The set of local file paths that exist. -/
abbrev World := List String

/-- A file coming into existence (download target, rename target). -/
def insertFile (p : String) (w : World) : World :=
  if p ∈ w then w else p :: w

/-- `os.remove` on an existing file. -/
def removeFile (p : String) (w : World) : World := w.erase p

/-- `with contextlib.suppress(FileNotFoundError): os.remove a; os.remove b`
(import.py lines 119-121 and 155-157).  If removing `a` raises
`FileNotFoundError`, the `with` block is exited at once and `b` is not
removed; a raise on `b` is likewise suppressed. -/
def suppressRemove2 (a b : String) (w : World) : World :=
  if a ∈ w then
    let w1 := removeFile a w
    if b ∈ w1 then removeFile b w1 else w1
  else
    w

def vm_conf_path (vmid : Nat) : String := s!"/etc/pve/qemu-server/{vmid}.conf"

/-- `vm_exists` (import.py lines 87-88). -/
def vm_exists (vmid : Nat) (w : World) : Bool := decide (vm_conf_path vmid ∈ w)

def filename_dl_of (name : String) : String := s!"./cloud_img/{name}.img.download"

def filename_img_of (name : String) : String := s!"./cloud_img/{name}.img"

/-- Python `repr` of a string, as printed for an argv command (the
commands the script prints contain no quotes, so no escaping arises). -/
def pyStrRepr (s : String) : String := "\x27" ++ s ++ "\x27"

/-- Python `repr` of a list of strings. -/
def pyListRepr (l : List String) : String :=
  "[" ++ String.intercalate ", " (l.map pyStrRepr) ++ "]"

/-- The text `print(f'# {cmd}')` shows for a command. -/
def cmdDisplay : Cmd → String
  | .shell s => s
  | .argv l => pyListRepr l

/-- The `run` helper (import.py lines 51-53): print the command, then
`subprocess.run(cmd, env=kwargs, shell=isinstance(cmd, str))`.  The
environment of the child is exactly the keyword arguments (`env=kwargs`
replaces, never extends, the parent environment).  `subprocess.run` is
called without `check=True`, so a non-zero exit status raises nothing:
the helper only emits the events. -/
def run (ex : Exec) (cmd : Cmd) (env : List (String × String)) : List Ev :=
  [Ev.print ("# " ++ cmdDisplay cmd), Ev.runCmd cmd env (ex.exitCode cmd)]

/-- `os.rename(src, dst)`: raises `FileNotFoundError` when `src` does not
exist, otherwise moves it (overwriting `dst`). -/
def os_rename (src dst : String) (w : World) :
    List Ev × Except PyError World :=
  if src ∈ w then
    ([Ev.rename src dst], Except.ok (insertFile dst (removeFile src w)))
  else
    ([], Except.error PyError.fileNotFoundError)

/-- `import_template` (import.py lines 106-160), as a function from the
template, the resolved storage and the current files to the event trace
and either the new file state or the exception raised (paired with the
events emitted before the raise).

Line by line: read `vmid`, `name`, `url` (in that order; `KeyError` on
the first missing one); skip if the VM config exists; announce; delete
stale files under `suppress(FileNotFoundError)`; download to the `.download`
path (an exception aborts); run the substituted unpack command or rename
the download to the image path; invoke `virt-customize` when the built
argument list is nonempty, with environment `LIBGUESTFS_BACKEND=direct`;
issue the `qm` commands, reading `template['cloud_init']` (`KeyError`
when missing) between the serial and template steps; delete the files
under `suppress(FileNotFoundError)`; print the closing lines. -/
def import_template (ex : Exec) (template : Template) (storage : StorageInfo)
    (w : World) : List Ev × Except PyError World :=
  match template.vmid with
  | none => ([], Except.error (PyError.keyError "vmid"))
  | some vmid =>
  match template.name with
  | none => ([], Except.error (PyError.keyError "name"))
  | some name =>
  match template.url with
  | none => ([], Except.error (PyError.keyError "url"))
  | some url =>
  if vm_exists vmid w then
    ([Ev.print s!"VM {vmid} exists, skipping."], Except.ok w)
  else
    let ev_announce := Ev.print s!"Importing {vmid} ({name}) from {url}"
    let filename_dl := filename_dl_of name
    let filename_img := filename_img_of name
    let w := suppressRemove2 filename_dl filename_img w
    if ex.dlOk url then
      let w := insertFile filename_dl w
      let evs_dl := [ev_announce, Ev.download url filename_dl]
      let unpackRes :=
        match template.unpack with
        | some unpack =>
          if unpack ≠ "" then
            (run ex (Cmd.shell (pyReplace (pyReplace unpack "{dl}" filename_dl)
                "{img}" filename_img)) [],
             Except.ok w)
          else
            os_rename filename_dl filename_img w
        | none => os_rename filename_dl filename_img w
      match unpackRes with
      | (evs_u, Except.error e) => (evs_dl ++ evs_u, Except.error e)
      | (evs_u, Except.ok w) =>
        let customize_args := build_customize_args template.customize
        let evs_c :=
          if customize_args.length ≠ 0 then
            run ex (Cmd.argv (["virt-customize", "-a", filename_img] ++ customize_args))
              [("LIBGUESTFS_BACKEND", "direct")]
          else []
        let sname := storage.name
        let evs_q1 :=
          run ex (Cmd.shell s!"qm create {vmid} --name {name} --memory 512 --net0 virtio,bridge=vmbr0") [] ++
          run ex (Cmd.shell s!"qm importdisk {vmid} {filename_img} {sname} -format qcow2") [] ++
          (let disk := storage.format_disk_name vmid
           run ex (Cmd.shell s!"qm set {vmid} --scsihw virtio-scsi-pci --scsi0 {sname}:{disk}") []) ++
          run ex (Cmd.shell s!"qm set {vmid} --boot c --bootdisk scsi0") [] ++
          run ex (Cmd.shell s!"qm set {vmid} --serial0 socket") []
        match template.cloud_init with
        | none =>
          (evs_dl ++ evs_u ++ evs_c ++ evs_q1, Except.error (PyError.keyError "cloud_init"))
        | some ci =>
          let evs_ci :=
            if ci then
              run ex (Cmd.shell s!"qm set {vmid} --ide2 {sname}:cloudinit") [] ++
              run ex (Cmd.shell s!"qm set {vmid} --ciuser root") []
            else []
          let evs_t := run ex (Cmd.shell s!"qm template {vmid}") []
          let evs_del := [Ev.print s!"Deleting {filename_img}"]
          let w := suppressRemove2 filename_dl filename_img w
          let evs_done := [Ev.print "Done", Ev.print ""]
          (evs_dl ++ evs_u ++ evs_c ++ evs_q1 ++ evs_ci ++ evs_t ++ evs_del ++ evs_done,
           Except.ok w)
    else
      ([ev_announce], Except.error PyError.urlError)

/-- The template loop of `main` (import.py lines 185-187): for each
template in order, process it when no name filter is given or the filter
equals `template['name']` (evaluated only then; `KeyError` when the name
is missing).  There is no exception boundary: a raise from
`import_template` ends the loop. -/
def run_templates (ex : Exec) (vm_name : Option String) (storage : StorageInfo) :
    List Template → World → List Ev × Except PyError World
  | [], w => ([], Except.ok w)
  | t :: ts, w =>
    match vm_name with
    | none =>
      match import_template ex t storage w with
      | (evs, Except.error e) => (evs, Except.error e)
      | (evs, Except.ok w2) =>
        let (evs2, r2) := run_templates ex none storage ts w2
        (evs ++ evs2, r2)
    | some v =>
      match t.name with
      | none => ([], Except.error (PyError.keyError "name"))
      | some n =>
        if v = n then
          match import_template ex t storage w with
          | (evs, Except.error e) => (evs, Except.error e)
          | (evs, Except.ok w2) =>
            let (evs2, r2) := run_templates ex (some v) storage ts w2
            (evs ++ evs2, r2)
        else
          run_templates ex (some v) storage ts w

/-- `templates['templates']` followed by the loop (import.py lines
182-187): a config whose top level lacks a well-formed `templates` list
raises `KeyError` before any template is processed. -/
def main_loop (ex : Exec) (vm_name : Option String) (storage : StorageInfo)
    (config : Option (List Template)) (w : World) : List Ev × Except PyError World :=
  match config with
  | none => ([], Except.error (PyError.keyError "templates"))
  | some ts => run_templates ex vm_name storage ts w

/-- The shell commands of a trace, in order. -/
def shellCmds (evs : List Ev) : List String :=
  evs.filterMap (fun e =>
    match e with
    | Ev.runCmd (Cmd.shell s) _ _ => some s
    | _ => none)

/-- Is this event an argv-style command launch?  The only argv command
the script ever issues is the `virt-customize` invocation. -/
def isArgvRun : Ev → Bool
  | Ev.runCmd (Cmd.argv _) _ _ => true
  | _ => false

/-- The environment discipline claim C9 asserts of every launched
command: shell commands run with the empty environment, the argv
(`virt-customize`) command with exactly `LIBGUESTFS_BACKEND=direct`. -/
def envOk : Ev → Bool
  | Ev.runCmd (Cmd.shell _) env _ => env == []
  | Ev.runCmd (Cmd.argv a) env _ =>
      env == [("LIBGUESTFS_BACKEND", "direct")] && a.take 2 == ["virt-customize", "-a"]
  | _ => true

/-- The events `import_template` emits between the existence check and
the first `qm` command: announcement, download, unpack-or-rename,
optional customization. -/
def pre_provision_events (ex : Exec) (t : Template) (vmid : Nat)
    (name url : String) : List Ev :=
  let filename_dl := filename_dl_of name
  let filename_img := filename_img_of name
  [Ev.print s!"Importing {vmid} ({name}) from {url}", Ev.download url filename_dl] ++
  (match t.unpack with
   | some unpack =>
     if unpack ≠ "" then
       run ex (Cmd.shell (pyReplace (pyReplace unpack "{dl}" filename_dl)
           "{img}" filename_img)) []
     else [Ev.rename filename_dl filename_img]
   | none => [Ev.rename filename_dl filename_img]) ++
  (let customize_args := build_customize_args t.customize
   if customize_args.length ≠ 0 then
     run ex (Cmd.argv (["virt-customize", "-a", filename_img] ++ customize_args))
       [("LIBGUESTFS_BACKEND", "direct")]
   else [])

/-- Concrete oracle: every download succeeds, every command exits 0. -/
def exAllOk : Exec := ⟨fun _ => true, fun _ => 0⟩

/-- Concrete oracle: every download succeeds, every command exits 1
(every external command fails). -/
def exAllFail : Exec := ⟨fun _ => true, fun _ => 1⟩

/-- Concrete oracle: every download raises. -/
def exNoDl : Exec := ⟨fun _ => false, fun _ => 0⟩

/-- The end-to-end scenario template of the spec: vmid 9000, name
`debian12`, cloud-init enabled, no unpack or customization. -/
def tDebian : Template :=
  ⟨some 9000, some "debian12", some "https://example/debian12.qcow2", none, none, some true⟩

/- ------------------------------------------------------------------ -/
/- Helper lemmas                                                      -/
/- ------------------------------------------------------------------ -/

/-- The storage loop resolves the first record whose name matches. -/
lemma check_storage_eq (name : String) (ss : List StorageRecord) :
    check_storage ss name =
      match ss.find? (fun r => r.storage == name) with
      | none => Except.error s!"PVE storage {name} does not exist."
      | some st =>
        if "images" ∉ pySplitComma st.content then
          Except.error s!"PVE storage {name} does not support VM images."
        else if st.type ∈ ["dir", "nfs", "glusterfs"] then
          Except.ok (StorageInfo.Dir name)
        else if st.type ∈ ["zfspool", "lvm", "lvmthin"] then
          Except.ok (StorageInfo.Raw name)
        else
          Except.error s!"Unsupported PVE storage type {st.type}." := by
  induction ss with
  | nil => rfl
  | cons st rest ih =>
    by_cases h : st.storage = name
    · have hb : (st.storage == name) = true := by
        simp [h]
      simp only [check_storage, List.find?, hb]
      simp [h]
    · have hb : (st.storage == name) = false := by
        simp [h]
      simp only [check_storage, List.find?, hb]
      simp only [ih]
      simp [h]

/-- A file just inserted exists. -/
lemma mem_insertFile (p : String) (w : World) : p ∈ insertFile p w := by
  unfold insertFile
  split
  · assumption
  · exact List.mem_cons_self p w

/-- The five `qm` invocations every import issues first:
create, importdisk, attach, boot, serial (import.py lines 139-146). -/
def qm_head_events (ex : Exec) (storage : StorageInfo) (vmid : Nat) (name : String) :
    List Ev :=
  let filename_img := filename_img_of name
  let sname := storage.name
  run ex (Cmd.shell s!"qm create {vmid} --name {name} --memory 512 --net0 virtio,bridge=vmbr0") [] ++
  run ex (Cmd.shell s!"qm importdisk {vmid} {filename_img} {sname} -format qcow2") [] ++
  (let disk := storage.format_disk_name vmid
   run ex (Cmd.shell s!"qm set {vmid} --scsihw virtio-scsi-pci --scsi0 {sname}:{disk}") []) ++
  run ex (Cmd.shell s!"qm set {vmid} --boot c --bootdisk scsi0") [] ++
  run ex (Cmd.shell s!"qm set {vmid} --serial0 socket") []

/-- The events after the `cloud_init` read succeeds: the optional
cloud-init pair, the template conversion, and the closing prints
(import.py lines 148-160). -/
def qm_tail_events (ex : Exec) (storage : StorageInfo) (vmid : Nat) (name : String)
    (ci : Bool) : List Ev :=
  let sname := storage.name
  (if ci then
     run ex (Cmd.shell s!"qm set {vmid} --ide2 {sname}:cloudinit") [] ++
     run ex (Cmd.shell s!"qm set {vmid} --ciuser root") []
   else []) ++
  run ex (Cmd.shell s!"qm template {vmid}") [] ++
  [Ev.print s!"Deleting {filename_img_of name}", Ev.print "Done", Ev.print ""]

/-- File-state effect of the unpack-or-rename step. -/
def unpack_world (t : Template) (name : String) (w : World) : World :=
  match t.unpack with
  | some u =>
    if u ≠ "" then w
    else insertFile (filename_img_of name) (removeFile (filename_dl_of name) w)
  | none => insertFile (filename_img_of name) (removeFile (filename_dl_of name) w)

/-- The files existing after a completed import: stale cleanup, download,
unpack-or-rename, final cleanup. -/
def import_final_world (t : Template) (name : String) (w : World) : World :=
  suppressRemove2 (filename_dl_of name) (filename_img_of name)
    (unpack_world t name
      (insertFile (filename_dl_of name)
        (suppressRemove2 (filename_dl_of name) (filename_img_of name) w)))

/-- Unfolding of a full run of `import_template` for a template whose
required fields are present, whose VM does not exist yet, and whose
download succeeds. -/
lemma import_template_happy (ex : Exec) (t : Template) (storage : StorageInfo)
    (w : World) (vmid : Nat) (name url : String)
    (hv : t.vmid = some vmid) (hn : t.name = some name) (hu : t.url = some url)
    (hx : vm_exists vmid w = false) (hdl : ex.dlOk url = true) :
    import_template ex t storage w =
      (pre_provision_events ex t vmid name url ++ qm_head_events ex storage vmid name ++
        (match t.cloud_init with
         | none => []
         | some ci => qm_tail_events ex storage vmid name ci),
       match t.cloud_init with
       | none => Except.error (PyError.keyError "cloud_init")
       | some _ => Except.ok (import_final_world t name w)) := by
  have hfd : filename_dl_of name ∈
      insertFile (filename_dl_of name) (suppressRemove2 (filename_dl_of name) (filename_img_of name) w) :=
    mem_insertFile _ _
  rcases hup : t.unpack with _ | u
  · rcases hci : t.cloud_init with _ | ci <;>
      simp [import_template, pre_provision_events, qm_head_events, qm_tail_events,
        import_final_world, unpack_world, os_rename, hv, hn, hu, hx, hdl, hup, hci, hfd,
        List.append_assoc]
  · by_cases hu0 : u = ""
    · rcases hci : t.cloud_init with _ | ci <;>
        simp [import_template, pre_provision_events, qm_head_events, qm_tail_events,
          import_final_world, unpack_world, os_rename, hv, hn, hu, hx, hdl, hup, hci, hu0,
          hfd, List.append_assoc]
    · rcases hci : t.cloud_init with _ | ci <;>
        simp [import_template, pre_provision_events, qm_head_events, qm_tail_events,
          import_final_world, unpack_world, os_rename, hv, hn, hu, hx, hdl, hup, hci, hu0,
          hfd, List.append_assoc]

/-- Every event of any `import_template` run satisfies `P`, provided `P`
holds of every print, download and rename event, of every shell command
run with the empty environment, and — when the built customization
argument list is nonempty — of the `virt-customize` argv run with the
`LIBGUESTFS_BACKEND=direct` environment.  These are the only event shapes
the routine can emit. -/
lemma import_trace_all (P : Ev → Bool) (ex : Exec) (t : Template)
    (st : StorageInfo) (w : World)
    (hprint : ∀ s, P (Ev.print s) = true)
    (hdown : ∀ u d, P (Ev.download u d) = true)
    (hren : ∀ a b, P (Ev.rename a b) = true)
    (hshell : ∀ s e, P (Ev.runCmd (Cmd.shell s) [] e) = true)
    (hargv : build_customize_args t.customize ≠ [] →
      ∀ x e, P (Ev.runCmd
        (Cmd.argv (["virt-customize", "-a", x] ++ build_customize_args t.customize))
        [("LIBGUESTFS_BACKEND", "direct")] e) = true) :
    (import_template ex t st w).fst.all P = true := by
  rcases ht : t.vmid with _ | vmid
  · simp [import_template, ht]
  rcases hn : t.name with _ | name
  · simp [import_template, ht, hn]
  rcases hu : t.url with _ | url
  · simp [import_template, ht, hn, hu]
  by_cases hx : vm_exists vmid w = true
  · simp [import_template, ht, hn, hu, hx, hprint]
  by_cases hdl : ex.dlOk url = true
  · rw [import_template_happy ex t st w vmid name url ht hn hu
      (Bool.not_eq_true _ ▸ hx) hdl]
    have hcust : build_customize_args t.customize ≠ [] → ∀ e,
        P (Ev.runCmd
          (Cmd.argv ("virt-customize" :: "-a" :: filename_img_of name ::
            build_customize_args t.customize))
          [("LIBGUESTFS_BACKEND", "direct")] e) = true :=
      fun h e => hargv h (filename_img_of name) e
    by_cases hc : build_customize_args t.customize = []
    · rcases hci : t.cloud_init with _ | ci <;> rcases hup : t.unpack with _ | u
      · simp_all [pre_provision_events, qm_head_events, qm_tail_events, run,
          List.all_append, Bool.and_eq_true]
      · by_cases hu0 : u = "" <;>
          simp_all [pre_provision_events, qm_head_events, qm_tail_events, run,
            List.all_append, Bool.and_eq_true]
      · cases ci <;>
          simp_all [pre_provision_events, qm_head_events, qm_tail_events, run,
            List.all_append, Bool.and_eq_true]
      · by_cases hu0 : u = "" <;> cases ci <;>
          simp_all [pre_provision_events, qm_head_events, qm_tail_events, run,
            List.all_append, Bool.and_eq_true]
    · have HA := hcust hc
      rcases hci : t.cloud_init with _ | ci <;> rcases hup : t.unpack with _ | u
      · simp_all [pre_provision_events, qm_head_events, qm_tail_events, run,
          List.all_append, Bool.and_eq_true]
      · by_cases hu0 : u = "" <;>
          simp_all [pre_provision_events, qm_head_events, qm_tail_events, run,
            List.all_append, Bool.and_eq_true]
      · cases ci <;>
          simp_all [pre_provision_events, qm_head_events, qm_tail_events, run,
            List.all_append, Bool.and_eq_true]
      · by_cases hu0 : u = "" <;> cases ci <;>
          simp_all [pre_provision_events, qm_head_events, qm_tail_events, run,
            List.all_append, Bool.and_eq_true]
  · have hdl2 : ex.dlOk url = false := Bool.not_eq_true _ ▸ hdl
    simp [import_template, ht, hn, hu, hx, hdl2, hprint]

/- ------------------------------------------------------------------ -/
/- Claim theorems                                                     -/
/- ------------------------------------------------------------------ -/

/-- Claim C1: for every storage inventory and name, the resolver yields
the file-path convention descriptor (disk names
`"{vmid}/vm-{vmid}-disk-0.qcow2"`) when the first record matching the
name has backend type `dir`, `nfs` or `glusterfs` and advertises
`images` content; the raw-volume convention (disk names
`"vm-{vmid}-disk-0"`) for `zfspool`, `lvm`, `lvmthin`; and raises an
error exactly in the remaining cases: no record matches the name, the
matching record's comma-separated content list lacks `images`, or its
backend type is none of those six. -/
theorem C1_storage_classification (storages : List StorageRecord) (name : String) :
    (storages.find? (fun r => r.storage == name) = none →
        check_storage storages name = Except.error s!"PVE storage {name} does not exist.")
    ∧ (∀ st, storages.find? (fun r => r.storage == name) = some st →
        (("images" ∈ pySplitComma st.content ∧ st.type ∈ ["dir", "nfs", "glusterfs"]) →
            check_storage storages name = Except.ok (StorageInfo.Dir name))
        ∧ (("images" ∈ pySplitComma st.content ∧ st.type ∈ ["zfspool", "lvm", "lvmthin"]) →
            check_storage storages name = Except.ok (StorageInfo.Raw name))
        ∧ ("images" ∉ pySplitComma st.content →
            check_storage storages name =
              Except.error s!"PVE storage {name} does not support VM images.")
        ∧ (("images" ∈ pySplitComma st.content ∧
              st.type ∉ ["dir", "nfs", "glusterfs", "zfspool", "lvm", "lvmthin"]) →
            check_storage storages name =
              Except.error s!"Unsupported PVE storage type {st.type}."))
    ∧ (∀ vmid : Nat,
        StorageInfo.format_disk_name (StorageInfo.Dir name) vmid =
          s!"{vmid}/vm-{vmid}-disk-0.qcow2"
        ∧ StorageInfo.format_disk_name (StorageInfo.Raw name) vmid =
          s!"vm-{vmid}-disk-0") := by
  refine ⟨?_, ?_, fun vmid => ⟨rfl, rfl⟩⟩
  · intro h
    rw [check_storage_eq, h]
  · intro st hfind
    rw [check_storage_eq name storages, hfind]
    refine ⟨?_, ?_, ?_, ?_⟩
    · rintro ⟨h1, h2⟩
      simp only [h1, not_true_eq_false, if_false, if_pos h2]
    · rintro ⟨h1, h2⟩
      have h3 : st.type ∉ ["dir", "nfs", "glusterfs"] := by
        simp only [List.mem_cons, List.mem_singleton, List.not_mem_nil, or_false] at h2 ⊢
        rcases h2 with h | h | h <;> rw [h] <;> simp
      simp only [h1, not_true_eq_false, if_false, if_neg h3, if_pos h2]
    · intro h1
      simp only [h1, not_false_eq_true, if_true]
    · rintro ⟨h1, h2⟩
      simp only [List.mem_cons, List.mem_singleton, List.not_mem_nil, or_false,
        not_or] at h2
      obtain ⟨n1, n2, n3, n4, n5, n6⟩ := h2
      have h3 : st.type ∉ ["dir", "nfs", "glusterfs"] := by simp [n1, n2, n3]
      have h4 : st.type ∉ ["zfspool", "lvm", "lvmthin"] := by simp [n4, n5, n6]
      simp only [h1, not_true_eq_false, if_false, if_neg h3, if_neg h4]

/-- Extending an argument list pairwise, as a map-join. -/
lemma foldl_extend_pairs {α : Type} (f : α → List String) :
    ∀ (l : List α) (init : List String),
      l.foldl (fun args x => args ++ f x) init = init ++ (l.map f).flatten := by
  intro l
  induction l with
  | nil => intro init; simp
  | cons a l ih =>
    intro init
    simp only [List.foldl_cons, List.map_cons, List.flatten, ih, List.append_assoc]

/-- Claim C7: the built customization argument list is one
`--upload <path>` pair per upload entry in order, then one
`--run-command <cmd>` pair per command entry in order; with no
`customize` spec, or when the built list is empty (both sub-lists empty),
no external customization tool is invoked at all: the trace holds no
argv-style command launch. -/
theorem C7_customize_args :
    (∀ c : Customize,
        build_customize_args (some c) =
          (c.uploads.map (fun upload => ["--upload", upload])).flatten ++
          (c.commands.map (fun command => ["--run-command", command])).flatten)
    ∧ build_customize_args none = []
    ∧ (∀ (ex : Exec) (t : Template) (st : StorageInfo) (w : World),
        build_customize_args t.customize = [] →
        (import_template ex t st w).fst.all (fun e => !isArgvRun e) = true) := by
  refine ⟨?_, rfl, ?_⟩
  · intro c
    show (c.commands.foldl (fun args command => args ++ ["--run-command", command])
        (c.uploads.foldl (fun args upload => args ++ ["--upload", upload]) [])) = _
    rw [foldl_extend_pairs (fun upload => ["--upload", upload]) c.uploads []]
    rw [foldl_extend_pairs (fun command => ["--run-command", command]) c.commands]
    simp
  · intro ex t st w hc
    refine import_trace_all _ ex t st w (fun s => rfl) (fun u d => rfl) (fun a b => rfl)
      (fun s e => rfl) (fun h => absurd hc h)

/-- Witness for C7 at a concrete customization spec and a concrete
customization-free import run. -/
theorem C7_customize_args_witness :
    build_customize_args (some ⟨["f1", "f2"], ["cmd1"]⟩) =
      ["--upload", "f1", "--upload", "f2", "--run-command", "cmd1"]
    ∧ (import_template exAllOk ⟨some 9001, some "alpine", some "u", none, none, some false⟩
        (StorageInfo.Dir "local") []).fst.all (fun e => !isArgvRun e) = true := by
  constructor
  · rw [(C7_customize_args).1 ⟨["f1", "f2"], ["cmd1"]⟩]
    rfl
  · exact (C7_customize_args).2.2 exAllOk
      ⟨some 9001, some "alpine", some "u", none, none, some false⟩
      (StorageInfo.Dir "local") [] rfl

/-- Claim C9 (implicit): the `run` helper passes `env=kwargs` to
`subprocess.run`, so each launched command's environment is exactly the
keyword arguments — the parent environment is not inherited.
Consequently every shell command (unpack and all `qm` commands) in any
trace runs with the empty environment and the only argv command, the
`virt-customize` invocation, runs with exactly
`LIBGUESTFS_BACKEND=direct`. -/
theorem C9_env_isolation :
    (∀ (ex : Exec) (cmd : Cmd) (env : List (String × String)),
        (run ex cmd env).all (fun e =>
          match e with
          | Ev.runCmd _ env2 _ => env2 == env
          | _ => true) = true)
    ∧ (∀ (ex : Exec) (t : Template) (st : StorageInfo) (w : World),
        (import_template ex t st w).fst.all envOk = true) := by
  constructor
  · intro ex cmd env
    simp [run]
  · intro ex t st w
    refine import_trace_all envOk ex t st w (fun s => rfl) (fun u d => rfl)
      (fun a b => rfl) (fun s e => rfl) (fun h x e => ?_)
    simp [envOk]

/-- Claim C5: a template whose VM id already has a definition file is
only reported as skipped: the trace is the single skip message, the
result is `ok` with the file state unchanged — no download, no file
deletion or creation, no customization, no provisioning command. -/
theorem C5_skip_existing (ex : Exec) (t : Template) (storage : StorageInfo)
    (w : World) (vmid : Nat) (name url : String)
    (hv : t.vmid = some vmid) (hn : t.name = some name) (hu : t.url = some url)
    (hx : vm_exists vmid w = true) :
    import_template ex t storage w =
      ([Ev.print s!"VM {vmid} exists, skipping."], Except.ok w) := by
  simp [import_template, hv, hn, hu, hx]

/-- Witness for C5: vmid 9000 with its definition file present. -/
theorem C5_skip_existing_witness :
    import_template exAllOk tDebian (StorageInfo.Dir "local")
        ["/etc/pve/qemu-server/9000.conf"] =
      ([Ev.print "VM 9000 exists, skipping."],
       Except.ok ["/etc/pve/qemu-server/9000.conf"]) :=
  C5_skip_existing exAllOk tDebian (StorageInfo.Dir "local")
    ["/etc/pve/qemu-server/9000.conf"] 9000 "debian12"
    "https://example/debian12.qcow2" rfl rfl rfl (by decide)

/-- Witness for C1 at concrete inventories. -/
theorem C1_storage_classification_witness :
    check_storage [⟨"local", "images,rootdir", "dir"⟩] "local" =
        Except.ok (StorageInfo.Dir "local")
    ∧ check_storage [⟨"tank", "images", "zfspool"⟩] "tank" =
        Except.ok (StorageInfo.Raw "tank")
    ∧ check_storage [] "nope" = Except.error "PVE storage nope does not exist." := by
  refine ⟨?_, ?_, ?_⟩
  · exact (((C1_storage_classification [⟨"local", "images,rootdir", "dir"⟩] "local").2.1
      ⟨"local", "images,rootdir", "dir"⟩ (by decide)).1 ⟨by decide, by decide⟩)
  · exact (((C1_storage_classification [⟨"tank", "images", "zfspool"⟩] "tank").2.1
      ⟨"tank", "images", "zfspool"⟩ (by decide)).2.1 ⟨by decide, by decide⟩)
  · exact (C1_storage_classification [] "nope").1 rfl

/-- Claim C10 (implicit): a template lacking the `cloud_init` key raises
`KeyError` only deep inside provisioning — after the announcement,
download, unpack-or-rename and optional customization
(`pre_provision_events`) and after the five `qm` commands that create
the VM, import and attach its disk and configure boot and serial
(`qm_head_events`) — and the trace ends there: no conversion to a
template is ever issued, leaving the partially provisioned VM on the
host.  The missing key is not detected at configuration-load time. -/
theorem C10_missing_cloud_init (ex : Exec) (t : Template) (storage : StorageInfo)
    (w : World) (vmid : Nat) (name url : String)
    (hv : t.vmid = some vmid) (hn : t.name = some name) (hu : t.url = some url)
    (hci : t.cloud_init = none)
    (hx : vm_exists vmid w = false) (hdl : ex.dlOk url = true) :
    import_template ex t storage w =
      (pre_provision_events ex t vmid name url ++ qm_head_events ex storage vmid name,
       Except.error (PyError.keyError "cloud_init")) := by
  rw [import_template_happy ex t storage w vmid name url hv hn hu hx hdl]
  simp [hci]

/-- Witness for C10: the five provisioning commands already ran, then the
`KeyError` surfaces; no `qm template` command is in the trace. -/
theorem C10_missing_cloud_init_witness :
    (import_template exAllOk ⟨some 9003, some "bionic", some "u", none, none, none⟩
        (StorageInfo.Dir "local") []).snd = Except.error (PyError.keyError "cloud_init")
    ∧ shellCmds (import_template exAllOk ⟨some 9003, some "bionic", some "u", none, none, none⟩
        (StorageInfo.Dir "local") []).fst =
      ["qm create 9003 --name bionic --memory 512 --net0 virtio,bridge=vmbr0",
       "qm importdisk 9003 ./cloud_img/bionic.img local -format qcow2",
       "qm set 9003 --scsihw virtio-scsi-pci --scsi0 local:9003/vm-9003-disk-0.qcow2",
       "qm set 9003 --boot c --bootdisk scsi0",
       "qm set 9003 --serial0 socket"] :=
  ⟨congrArg Prod.snd (C10_missing_cloud_init exAllOk
      ⟨some 9003, some "bionic", some "u", none, none, none⟩
      (StorageInfo.Dir "local") [] 9003 "bionic" "u" rfl rfl rfl rfl (by decide) rfl),
   by decide⟩

/-- Claim C4: for a fresh VM id (and successful download), the
provisioning commands are issued in exactly the documented order —
create with memory 512 and a bridged default NIC; importdisk with qcow2
format; attach under the storage descriptor's disk name with the fixed
SCSI controller; boot from that disk; serial socket; exactly when the
cloud-init flag is set, the cloud-init drive and default user; finally
the conversion to a template — and in the spec's 9000/debian12 scenario
on a `dir` storage named `local` the disk is attached as
`9000/vm-9000-disk-0.qcow2`. -/
theorem C4_provision_sequence :
    (∀ (ex : Exec) (t : Template) (storage : StorageInfo) (w : World)
        (vmid : Nat) (name url sname disk fimg : String) (ci : Bool),
        t.vmid = some vmid → t.name = some name → t.url = some url →
        t.cloud_init = some ci →
        vm_exists vmid w = false → ex.dlOk url = true →
        storage.name = sname → storage.format_disk_name vmid = disk →
        filename_img_of name = fimg →
        (import_template ex t storage w).fst =
          pre_provision_events ex t vmid name url ++
          run ex (Cmd.shell s!"qm create {vmid} --name {name} --memory 512 --net0 virtio,bridge=vmbr0") [] ++
          run ex (Cmd.shell s!"qm importdisk {vmid} {fimg} {sname} -format qcow2") [] ++
          run ex (Cmd.shell s!"qm set {vmid} --scsihw virtio-scsi-pci --scsi0 {sname}:{disk}") [] ++
          run ex (Cmd.shell s!"qm set {vmid} --boot c --bootdisk scsi0") [] ++
          run ex (Cmd.shell s!"qm set {vmid} --serial0 socket") [] ++
          (if ci then
             run ex (Cmd.shell s!"qm set {vmid} --ide2 {sname}:cloudinit") [] ++
             run ex (Cmd.shell s!"qm set {vmid} --ciuser root") []
           else []) ++
          run ex (Cmd.shell s!"qm template {vmid}") [] ++
          [Ev.print s!"Deleting {fimg}", Ev.print "Done", Ev.print ""])
    ∧ shellCmds (import_template exAllOk tDebian (StorageInfo.Dir "local") []).fst =
        ["qm create 9000 --name debian12 --memory 512 --net0 virtio,bridge=vmbr0",
         "qm importdisk 9000 ./cloud_img/debian12.img local -format qcow2",
         "qm set 9000 --scsihw virtio-scsi-pci --scsi0 local:9000/vm-9000-disk-0.qcow2",
         "qm set 9000 --boot c --bootdisk scsi0",
         "qm set 9000 --serial0 socket",
         "qm set 9000 --ide2 local:cloudinit",
         "qm set 9000 --ciuser root",
         "qm template 9000"] := by
  constructor
  · intro ex t storage w vmid name url sname disk fimg ci hv hn hu hci hx hdl hs hd hf
    subst hs hd hf
    rw [(congrArg Prod.fst (import_template_happy ex t storage w vmid name url hv hn hu hx hdl))]
    simp only [hci]
    simp [qm_head_events, qm_tail_events, List.append_assoc]
  · decide

/-- Witness for C4 in the spec's end-to-end scenario. -/
theorem C4_provision_sequence_witness :
    (import_template exAllOk tDebian (StorageInfo.Dir "local") []).fst =
      pre_provision_events exAllOk tDebian 9000 "debian12" "https://example/debian12.qcow2" ++
      run exAllOk (Cmd.shell "qm create 9000 --name debian12 --memory 512 --net0 virtio,bridge=vmbr0") [] ++
      run exAllOk (Cmd.shell "qm importdisk 9000 ./cloud_img/debian12.img local -format qcow2") [] ++
      run exAllOk (Cmd.shell "qm set 9000 --scsihw virtio-scsi-pci --scsi0 local:9000/vm-9000-disk-0.qcow2") [] ++
      run exAllOk (Cmd.shell "qm set 9000 --boot c --bootdisk scsi0") [] ++
      run exAllOk (Cmd.shell "qm set 9000 --serial0 socket") [] ++
      (if true then
         run exAllOk (Cmd.shell "qm set 9000 --ide2 local:cloudinit") [] ++
         run exAllOk (Cmd.shell "qm set 9000 --ciuser root") []
       else []) ++
      run exAllOk (Cmd.shell "qm template 9000") [] ++
      [Ev.print "Deleting ./cloud_img/debian12.img", Ev.print "Done", Ev.print ""] :=
  (C4_provision_sequence).1 exAllOk tDebian (StorageInfo.Dir "local") []
    9000 "debian12" "https://example/debian12.qcow2" "local"
    "9000/vm-9000-disk-0.qcow2" "./cloud_img/debian12.img" true
    rfl rfl rfl rfl (by decide) rfl rfl (by decide) rfl

/-- Claim C6 (amended): the executed unpack command is the command
template with `{dl}` occurrences replaced by the download path first and
`{img}` occurrences replaced in the result of that first pass (so a
`{img}` contributed by the substituted download path is replaced too);
for a template without an unpack step the downloaded file is renamed
directly to the final image path. -/
theorem C6_unpack_substitution :
    (∀ (ex : Exec) (t : Template) (storage : StorageInfo) (w : World)
        (vmid : Nat) (name url u : String),
        t.vmid = some vmid → t.name = some name → t.url = some url →
        t.unpack = some u → u ≠ "" →
        vm_exists vmid w = false → ex.dlOk url = true →
        (import_template ex t storage w).fst.take 4 =
          [Ev.print s!"Importing {vmid} ({name}) from {url}",
           Ev.download url (filename_dl_of name),
           Ev.print ("# " ++ pyReplace (pyReplace u "{dl}" (filename_dl_of name))
             "{img}" (filename_img_of name)),
           Ev.runCmd (Cmd.shell (pyReplace (pyReplace u "{dl}" (filename_dl_of name))
               "{img}" (filename_img_of name))) []
             (ex.exitCode (Cmd.shell (pyReplace (pyReplace u "{dl}" (filename_dl_of name))
               "{img}" (filename_img_of name))))])
    ∧ (∀ (ex : Exec) (t : Template) (storage : StorageInfo) (w : World)
        (vmid : Nat) (name url : String),
        t.vmid = some vmid → t.name = some name → t.url = some url →
        t.unpack = none →
        vm_exists vmid w = false → ex.dlOk url = true →
        (import_template ex t storage w).fst.take 3 =
          [Ev.print s!"Importing {vmid} ({name}) from {url}",
           Ev.download url (filename_dl_of name),
           Ev.rename (filename_dl_of name) (filename_img_of name)]) := by
  constructor
  · intro ex t storage w vmid name url u hv hn hu hup hu0 hx hdl
    rw [congrArg Prod.fst (import_template_happy ex t storage w vmid name url hv hn hu hx hdl)]
    simp [pre_provision_events, hup, hu0, run, cmdDisplay, List.append_assoc]
  · intro ex t storage w vmid name url hv hn hu hup hx hdl
    rw [congrArg Prod.fst (import_template_happy ex t storage w vmid name url hv hn hu hx hdl)]
    simp [pre_provision_events, hup, run, cmdDisplay, List.append_assoc]

/-- Counterexample to C6 as stated: with template name `a{img}b` and
unpack command `cp {dl} {img}`, the executed command is not the
simultaneous substitution of the two placeholders by their literal paths
— the second `str.replace` pass also rewrites the `{img}` that the
substituted download path contains. -/
theorem C6_unpack_substitution_counterexample :
    (import_template exAllOk
        ⟨some 9100, some "a{img}b", some "u", some "cp {dl} {img}", none, some false⟩
        (StorageInfo.Dir "local") []).fst.take 4 =
      [Ev.print "Importing 9100 (a{img}b) from u",
       Ev.download "u" "./cloud_img/a{img}b.img.download",
       Ev.print "# cp ./cloud_img/a./cloud_img/a{img}b.imgb.img.download ./cloud_img/a{img}b.img",
       Ev.runCmd (Cmd.shell
         "cp ./cloud_img/a./cloud_img/a{img}b.imgb.img.download ./cloud_img/a{img}b.img") [] 0]
    ∧ spec_substitute "cp {dl} {img}" (filename_dl_of "a{img}b") (filename_img_of "a{img}b") =
      "cp ./cloud_img/a{img}b.img.download ./cloud_img/a{img}b.img"
    ∧ ("cp ./cloud_img/a./cloud_img/a{img}b.imgb.img.download ./cloud_img/a{img}b.img" : String) ≠
      "cp ./cloud_img/a{img}b.img.download ./cloud_img/a{img}b.img" := by
  decide

/-- Witness for C6 at the spec's own example `tar xf {dl} -O > {img}`. -/
theorem C6_unpack_substitution_witness :
    (import_template exAllOk
        ⟨some 9002, some "arch", some "https://example/arch.tar",
          some "tar xf {dl} -O > {img}", none, some false⟩
        (StorageInfo.Dir "local") []).fst.take 4 =
      [Ev.print "Importing 9002 (arch) from https://example/arch.tar",
       Ev.download "https://example/arch.tar" "./cloud_img/arch.img.download",
       Ev.print "# tar xf ./cloud_img/arch.img.download -O > ./cloud_img/arch.img",
       Ev.runCmd (Cmd.shell "tar xf ./cloud_img/arch.img.download -O > ./cloud_img/arch.img") [] 0] :=
  (C6_unpack_substitution).1 exAllOk
    ⟨some 9002, some "arch", some "https://example/arch.tar",
      some "tar xf {dl} -O > {img}", none, some false⟩
    (StorageInfo.Dir "local") [] 9002 "arch" "https://example/arch.tar"
    "tar xf {dl} -O > {img}" rfl rfl rfl rfl (by decide) (by decide) rfl

/-- Claim C2 (amended): an exception raised inside `import_template` —
such as a download failure — propagates out unhandled and aborts the
whole run: the loop emits exactly the failing template's events and no
later template is processed.  (A failing unpack or `qm` command, i.e. a
non-zero exit status, raises no exception, because `run` never checks
exit codes; see the counterexample.) -/
theorem C2_exception_aborts_run :
    (∀ (ex : Exec) (storage : StorageInfo) (t : Template) (ts : List Template)
        (w : World) (evs : List Ev) (e : PyError),
        import_template ex t storage w = (evs, Except.error e) →
        run_templates ex none storage (t :: ts) w = (evs, Except.error e))
    ∧ (∀ (ex : Exec) (t : Template) (storage : StorageInfo) (w : World)
        (vmid : Nat) (name url : String),
        t.vmid = some vmid → t.name = some name → t.url = some url →
        vm_exists vmid w = false → ex.dlOk url = false →
        import_template ex t storage w =
          ([Ev.print s!"Importing {vmid} ({name}) from {url}"],
           Except.error PyError.urlError)) := by
  constructor
  · intro ex storage t ts w evs e h
    simp [run_templates, h]
  · intro ex t storage w vmid name url hv hn hu hx hdl
    simp [import_template, hv, hn, hu, hx, hdl]

/-- Counterexample to C2 as stated: with every external command exiting
with status 1 (unpack and all `qm` commands fail), `import_template`
raises nothing — it runs to completion, the failed `qm template` launch
included. -/
theorem C2_exception_aborts_run_counterexample :
    (import_template exAllFail
        ⟨some 9000, some "debian12", some "https://example/debian12.qcow2",
          some "tar xf {dl} -O > {img}", none, some true⟩
        (StorageInfo.Dir "local") []).snd = Except.ok []
    ∧ Ev.runCmd (Cmd.shell "tar xf ./cloud_img/debian12.img.download -O > ./cloud_img/debian12.img") [] 1 ∈
        (import_template exAllFail
          ⟨some 9000, some "debian12", some "https://example/debian12.qcow2",
            some "tar xf {dl} -O > {img}", none, some true⟩
          (StorageInfo.Dir "local") []).fst
    ∧ Ev.runCmd (Cmd.shell "qm template 9000") [] 1 ∈
        (import_template exAllFail
          ⟨some 9000, some "debian12", some "https://example/debian12.qcow2",
            some "tar xf {dl} -O > {img}", none, some true⟩
          (StorageInfo.Dir "local") []).fst := by
  decide

/-- Witness for C2: a failing download aborts the run before the second
template contributes any event. -/
theorem C2_exception_aborts_run_witness :
    run_templates exNoDl none (StorageInfo.Dir "local")
        [⟨some 9000, some "debian12", some "u", none, none, some true⟩, tDebian] [] =
      ([Ev.print "Importing 9000 (debian12) from u"], Except.error PyError.urlError) :=
  (C2_exception_aborts_run).1 exNoDl (StorageInfo.Dir "local")
    ⟨some 9000, some "debian12", some "u", none, none, some true⟩ [tDebian] []
    [Ev.print "Importing 9000 (debian12) from u"] PyError.urlError (by decide)

/-- C3, evaluated at the failing input: for a template without an unpack
step, a fully successful import ends with `./cloud_img/alpine.img` still
on disk — the download was renamed to the image path, so the cleanup's
`os.remove(filename_dl)` raises `FileNotFoundError` and
`contextlib.suppress` exits the block before `os.remove(filename_img)`
runs.  For a template with an unpack step the cleanup removes
everything. -/
theorem C3_cleanup_leaves_image :
    (import_template exAllOk
        ⟨some 9001, some "alpine", some "https://example/alpine.img", none, none, some false⟩
        (StorageInfo.Dir "local") []).snd = Except.ok ["./cloud_img/alpine.img"]
    ∧ (import_template exAllOk
        ⟨some 9002, some "arch", some "https://example/arch.tar",
          some "tar xf {dl} -O > {img}", none, some false⟩
        (StorageInfo.Dir "local") []).snd = Except.ok [] := by
  decide

/-- Claim C8 (amended): a config whose top level has no well-formed
`templates` list fails before any template is processed; but a template
missing a required field (`vmid`, `name`, `url`) raises `KeyError` only
when the loop reaches that template — it contributes no events itself,
while templates earlier in the list are fully processed first (see the
counterexample). -/
theorem C8_lazy_field_validation :
    (∀ (ex : Exec) (vm_name : Option String) (storage : StorageInfo) (w : World),
        main_loop ex vm_name storage none w =
          ([], Except.error (PyError.keyError "templates")))
    ∧ (∀ (ex : Exec) (storage : StorageInfo) (t : Template) (ts : List Template)
        (w : World),
        t.vmid = none →
        run_templates ex none storage (t :: ts) w =
          ([], Except.error (PyError.keyError "vmid")))
    ∧ (∀ (ex : Exec) (storage : StorageInfo) (t : Template) (ts : List Template)
        (w : World) (vmid : Nat) (name : String),
        t.vmid = some vmid → t.name = some name → t.url = none →
        run_templates ex none storage (t :: ts) w =
          ([], Except.error (PyError.keyError "url"))) := by
  refine ⟨fun ex vm_name storage w => rfl, ?_, ?_⟩
  · intro ex storage t ts w h
    simp [run_templates, import_template, h]
  · intro ex storage t ts w vmid name hv hn hu
    simp [run_templates, import_template, hv, hn, hu]

/-- Counterexample to C8 as stated: a template list whose second entry
lacks `url` is not rejected before template processing — the first
template is fully imported (download and all `qm` commands issued,
template conversion included) before the `KeyError` aborts the run. -/
theorem C8_lazy_field_validation_counterexample :
    (run_templates exAllOk none (StorageInfo.Dir "local")
        [⟨some 9000, some "tA", some "https://example/a.qcow2", none, none, some false⟩,
         ⟨some 9001, some "tB", none, none, none, none⟩] []).snd =
      Except.error (PyError.keyError "url")
    ∧ Ev.download "https://example/a.qcow2" "./cloud_img/tA.img.download" ∈
        (run_templates exAllOk none (StorageInfo.Dir "local")
          [⟨some 9000, some "tA", some "https://example/a.qcow2", none, none, some false⟩,
           ⟨some 9001, some "tB", none, none, none, none⟩] []).fst
    ∧ "qm template 9000" ∈ shellCmds
        (run_templates exAllOk none (StorageInfo.Dir "local")
          [⟨some 9000, some "tA", some "https://example/a.qcow2", none, none, some false⟩,
           ⟨some 9001, some "tB", none, none, none, none⟩] []).fst := by
  decide

/-- Witness for C8: a lone url-less template aborts the loop at once. -/
theorem C8_lazy_field_validation_witness :
    run_templates exAllOk none (StorageInfo.Dir "local")
        [⟨some 9001, some "tB", none, none, none, none⟩] [] =
      ([], Except.error (PyError.keyError "url")) :=
  (C8_lazy_field_validation).2.2 exAllOk (StorageInfo.Dir "local")
    ⟨some 9001, some "tB", none, none, none, none⟩ [] [] 9001 "tB" rfl rfl rfl

end PveImport

